import Mathlib

/-!
Verification of the Wiki Space Access cascade editor scripts and the
access resolver of the frappe_wiki repository.

The repository carries three versions of the client script for the
`Wiki Space Access` form:

* `wiki_space_access.js` (the committed file), embedded as `stepM`;
* `part_000` (refactor with `old_wiki_space` tracking), embedded as `step0`;
* `part_001` (refactor that also fetches the route on load), embedded as `step1`.

JavaScript field values are modelled by `JStr` (undefined, null, or a
string); child-table contents by `Option (List String)` (`none` is an
undefined field, `some l` a list of row page names).  The asynchronous
`frappe.db.get_doc('Wiki Space', v).then(doc => ...)` call is modelled by an
environment `env : JStr → Option JStr` giving the `route` of the fetched
document; `env v = none` is a failed fetch, whose `.then` callback never
runs (the scripts install no rejection handler).
-/

/-- A JavaScript value held by a form field: `undefined`, `null`, or a
string (possibly empty). -/
inductive JStr where
  | undef : JStr
  | null : JStr
  | str : String → JStr
deriving Repr, DecidableEq

/-- JavaScript truthiness of such a value: only a non-empty string is truthy. -/
def JStr.truthy : JStr → Bool
  | .str s => !(s == "")
  | _ => false

/-- The JavaScript idiom `v || null` used by `let old_value = frm.old_wiki_space || null`. -/
def JStr.orNull (v : JStr) : JStr := if v.truthy then v else .null

/-- The JavaScript idiom `frm.route_value || ""` used by the `set_query`
filter: a string value passes through (an empty string stays empty), any
other value becomes the empty string. -/
def JStr.toScope : JStr → String
  | .str s => s
  | _ => ""

/-- The client-side form state tracked by all three script versions:
`frm.doc.wiki_space`, `frm.doc.access_list` (child rows, by page name),
`frm.old_wiki_space` and `frm.route_value`. -/
structure FormState where
  wiki_space : JStr
  access_list : Option (List String)
  old_wiki_space : JStr
  route_value : JStr
deriving Repr, DecidableEq

/-- The row contents of the `access_list` child table (an undefined field
has no rows). -/
def FormState.contents (f : FormState) : List String := f.access_list.getD []

/-- The `wiki_space_route` filter value the `set_query` callback sends for
the page-choice lookup: `frm.route_value || ""`. -/
def FormState.scope (f : FormState) : String := f.route_value.toScope

/-- Observable effects of handling one form event: whether
`frappe.confirm` was shown, and which `Wiki Space` names were passed to
`frappe.db.get_doc`, in order. -/
structure Eff where
  prompted : Bool
  fetched : List JStr
deriving Repr, DecidableEq

/-- The empty effect record. -/
def Eff.pure : Eff := ⟨false, []⟩

/-- Events of an editing session: form load, or a `wiki_space` field
change carrying the new value and the operator's answer to a confirmation
prompt (consulted only when a prompt is actually shown). -/
inductive Ev where
  | load : Ev
  | change : JStr → Bool → Ev
deriving Repr, DecidableEq

/-- `update_wiki_space_route(frm)` of `part_001`: if `frm.doc.wiki_space`
is falsy, return without fetching; otherwise fetch the `Wiki Space`
record and, on success, set `frm.route_value = doc.route || ""` (a failed
fetch leaves the form untouched). -/
def update_wiki_space_route (env : JStr → Option JStr) (f : FormState) : FormState × Eff :=
  if f.wiki_space.truthy then
    match env f.wiki_space with
    | some rv => ({ f with route_value := if rv.truthy then rv else .str "" }, ⟨false, [f.wiki_space]⟩)
    | none => (f, ⟨false, [f.wiki_space]⟩)
  else (f, Eff.pure)

/-- `fetch_wiki_space(frm)` of `part_000`: fetch the `Wiki Space` record
named by `frm.doc.wiki_space` unconditionally and, on success, set
`frm.route_value = doc.route` (raw, no defaulting). -/
def fetch_wiki_space (env : JStr → Option JStr) (f : FormState) : FormState × Eff :=
  match env f.wiki_space with
  | some rv => ({ f with route_value := rv }, ⟨false, [f.wiki_space]⟩)
  | none => (f, ⟨false, [f.wiki_space]⟩)

/-- One event of the `part_001` script.  `onload` stores
`frm.old_wiki_space = frm.doc.wiki_space` and calls
`update_wiki_space_route`.  The `wiki_space` handler compares the new doc
value with `frm.old_wiki_space || null`; on equality it returns; with a
non-empty `access_list` it confirms, and on yes clears the table, updates
the route and stores the new old value, while on no it reverts the field
via `frm.set_value("wiki_space", old_value)` (whose re-entrant trigger is
a no-op since the values then agree); with an empty list it runs the same
`proceed` closure without confirming. -/
def step1 (env : JStr → Option JStr) (f : FormState) : Ev → FormState × Eff
  | .load =>
      update_wiki_space_route env { f with old_wiki_space := f.wiki_space }
  | .change v resp =>
      let f1 : FormState := { f with wiki_space := v }
      let old := f.old_wiki_space.orNull
      if v = old then (f1, Eff.pure)
      else if 0 < f1.contents.length then
        if resp then
          let p := update_wiki_space_route env { f1 with access_list := some [] }
          ({ p.1 with old_wiki_space := v }, ⟨true, p.2.fetched⟩)
        else
          ({ f1 with wiki_space := old }, ⟨true, []⟩)
      else
        let p := update_wiki_space_route env { f1 with access_list := some [] }
        ({ p.1 with old_wiki_space := v }, p.2)

/-- One event of the `part_000` script.  `onload` stores
`frm.old_wiki_space` but fetches nothing.  The `wiki_space` handler is as
in `part_001`, except that the empty-list branch calls
`fetch_wiki_space` without clearing, and the confirm branch calls
`fetch_wiki_space` (raw route, unconditional fetch) after clearing. -/
def step0 (env : JStr → Option JStr) (f : FormState) : Ev → FormState × Eff
  | .load =>
      ({ f with old_wiki_space := f.wiki_space }, Eff.pure)
  | .change v resp =>
      let f1 : FormState := { f with wiki_space := v }
      let old := f.old_wiki_space.orNull
      if v = old then (f1, Eff.pure)
      else if 0 < f1.contents.length then
        if resp then
          let p := fetch_wiki_space env { f1 with access_list := some [] }
          ({ p.1 with old_wiki_space := v }, ⟨true, p.2.fetched⟩)
        else
          ({ f1 with wiki_space := old }, ⟨true, []⟩)
      else
        let p := fetch_wiki_space env f1
        ({ p.1 with old_wiki_space := v }, p.2)

/-- One event of the committed `wiki_space_access.js`.  There is no
`onload` handler, so `frm.old_wiki_space` is never assigned.  The
`wiki_space` handler shows the confirmation whenever `frm.doc.access_list`
is defined (even when it has no rows); yes assigns `frm.doc.access_list = []`,
no does nothing (no revert); the `frappe.db.get_doc` fetch is issued
unconditionally after showing the prompt, regardless of the answer. -/
def stepM (env : JStr → Option JStr) (f : FormState) : Ev → FormState × Eff
  | .load => (f, Eff.pure)
  | .change v resp =>
      let f1 : FormState := { f with wiki_space := v }
      let prompted := f1.access_list.isSome
      let f2 : FormState := if prompted && resp then { f1 with access_list := some [] } else f1
      match env v with
      | some rv => ({ f2 with route_value := rv }, ⟨prompted, [v]⟩)
      | none => (f2, ⟨prompted, [v]⟩)

/-- Final state of a `part_001` session handling a list of events. -/
def run1 (env : JStr → Option JStr) (f : FormState) (evs : List Ev) : FormState :=
  evs.foldl (fun g e => (step1 env g e).1) f

/-- Final state of a `part_000` session handling a list of events. -/
def run0 (env : JStr → Option JStr) (f : FormState) (evs : List Ev) : FormState :=
  evs.foldl (fun g e => (step0 env g e).1) f

/-- Final state of a session of the committed script handling a list of events. -/
def runM (env : JStr → Option JStr) (f : FormState) (evs : List Ev) : FormState :=
  evs.foldl (fun g e => (stepM env g e).1) f

/-- A concrete route environment used by witnesses and counterexamples:
space `eng` has route `eng-route`, space `sales` has route `sales-route`,
every other fetch fails. -/
def envEx : JStr → Option JStr
  | .str "eng" => some (.str "eng-route")
  | .str "sales" => some (.str "sales-route")
  | _ => none

/-!
The Access Resolver.  Its Python implementation
(`wiki_page.py: verify_permission / check_user_access /
check_user_edit_permission`) is not part of the source tree; only the
prose documentation in `src/wiki/wiki/doctype/wiki_page/README.md`
describes it.  The definitions below are therefore modelled from the
spec (section 4.1) rather than translated from code.
-/

/-- Modelled from the spec: a `Wiki Page Access` child row
(`PageAccessEntry`): `page` link, `visible` and `editable` checkboxes. -/
structure PageAccessEntry where
  page : String
  visible : Bool
  editable : Bool
deriving Repr, DecidableEq

/-- Modelled from the spec: a `Wiki Space Access` record: auto-assigned
id, linked `space`, submission state, and its `access_list` of page
entries. -/
structure SpaceAccess where
  id : String
  space : String
  submitted : Bool
  pageEntries : List PageAccessEntry
deriving Repr, DecidableEq

/-- Modelled from the spec: a `Wiki Access` grant row inside a
`Wiki User Access` record: link to a `Wiki Space Access` and an
`enabled` checkbox. -/
structure AccessGrantRef where
  spaceAccessId : String
  enabled : Bool
deriving Repr, DecidableEq

/-- Modelled from the spec: a `Wiki User Access` record: owning user,
submission state, and the ordered grant list. -/
structure UserAccess where
  user : String
  submitted : Bool
  grants : List AccessGrantRef
deriving Repr, DecidableEq

/-- Modelled from the spec: a `Wiki Page` record: id, owning space,
route, and its `allow_guest` flag. -/
structure WikiPage where
  id : String
  space : String
  route : String
  allowGuest : Bool
deriving Repr, DecidableEq

/-- Modelled from the spec: the persisted record state the resolver
reads: all access records and pages, the global guest-disable setting
and the anonymous identity. -/
structure Db where
  userAccesses : List UserAccess
  spaceAccesses : List SpaceAccess
  pages : List WikiPage
  globalGuestDisabled : Bool
  guestUser : String
deriving Repr, DecidableEq

/-- The resolver's result: the `(canView, canEdit)` pair. -/
structure Perm where
  canView : Bool
  canEdit : Bool
deriving Repr, DecidableEq

/-- Modelled from the spec: guest/page-level fallback logic (spec 4.1
step 1): view iff the page allows guests and guest access is not
globally disabled; never edit. -/
def guestPerm (db : Db) (pg : WikiPage) : Perm :=
  ⟨pg.allowGuest && !db.globalGuestDisabled, false⟩

/-- Modelled from the spec: the enabled grant targets of an active
`UserAccess` (spec 4.1 step 4). -/
def enabledGrantIds (ua : UserAccess) : List String :=
  (ua.grants.filter (fun g => g.enabled)).map (fun g => g.spaceAccessId)

/-- Modelled from the spec: the submitted `SpaceAccess` records covering
the page's space that the user holds an enabled grant to (spec 4.1
step 5). -/
def matchedSpaceAccesses (db : Db) (ua : UserAccess) (pg : WikiPage) : List SpaceAccess :=
  db.spaceAccesses.filter
    (fun sa => sa.submitted && (sa.space == pg.space) && (enabledGrantIds ua).contains sa.id)

/-- Modelled from the spec: all `PageAccessEntry` rows for the page
inside the matched space accesses (spec 4.1 step 6). -/
def matchedEntries (db : Db) (ua : UserAccess) (pg : WikiPage) : List PageAccessEntry :=
  ((matchedSpaceAccesses db ua pg).map (fun sa => sa.pageEntries)).flatten.filter
    (fun e => e.page == pg.id)

/-- Modelled from the spec: `resolve(user, page, editMode)` in explicit
state-passing form, threading the record state through every lookup so
that the read-only guarantee is a provable statement rather than a
convention.  Steps follow spec 4.1: unknown page is NotFound (`none`);
the guest identity, a user without an active `UserAccess`, a user whose
enabled submitted grants do not cover the page's space, and a page not
mentioned in any matched entry all fall back to guest logic; otherwise
view/edit are the OR over the matched entries, and edit is only
evaluated under `editMode`. -/
def resolveSt (db : Db) (u page : String) (editMode : Bool) : Option Perm × Db :=
  match db.pages.find? (fun pg => pg.id == page) with
  | none => (none, db)
  | some pg =>
    if u == db.guestUser then (some (guestPerm db pg), db)
    else
      match db.userAccesses.find? (fun ua => (ua.user == u) && ua.submitted) with
      | none => (some (guestPerm db pg), db)
      | some ua =>
        if (matchedSpaceAccesses db ua pg).isEmpty then (some (guestPerm db pg), db)
        else if (matchedEntries db ua pg).isEmpty then (some (guestPerm db pg), db)
        else
          (some ⟨(matchedEntries db ua pg).any (fun e => e.visible),
                 editMode && (matchedEntries db ua pg).any (fun e => e.editable)⟩, db)

/-- Modelled from the spec: the resolver proper, the value component of
`resolveSt`. -/
def resolve (db : Db) (u page : String) (editMode : Bool) : Option Perm :=
  (resolveSt db u page editMode).1

/-- The cascade invariant, relative to an abstract scope-membership
relation `b p s` (page `p` lies in the route scope of space value `s`):
every row of the dependent list lies in the scope of the committed space
(`old_wiki_space`), and also in the scope of the current field value —
the two coincide in every loaded state. -/
def Inv2 (b : String → JStr → Prop) (f : FormState) : Prop :=
  (∀ p ∈ f.contents, b p f.old_wiki_space.orNull) ∧
  (∀ p ∈ f.contents, b p f.wiki_space.orNull)

/-- A concrete loaded form state used by witnesses and counterexamples:
space `eng` committed, one access row `p1`, route cache `eng-route`. -/
def fEx : FormState := ⟨.str "eng", some ["p1"], .str "eng", .str "eng-route"⟩

/-- The observables claim C10 compares across script versions: the
field value, the committed `old_wiki_space`, and the row contents of
the dependent list. -/
def obs (f : FormState) : JStr × JStr × List String :=
  (f.wiki_space, f.old_wiki_space, f.contents)

/-- The common evolution of those observables shared by `part_000` and
`part_001` (`o = (wiki_space, old_wiki_space, contents)`). -/
def obsStep (o : JStr × JStr × List String) : Ev → JStr × JStr × List String
  | .load => (o.1, o.1, o.2.2)
  | .change v resp =>
      if v = o.2.1.orNull then (v, o.2.1, o.2.2)
      else if 0 < o.2.2.length then
        if resp then (v, v, [])
        else (o.2.1.orNull, o.2.1, o.2.2)
      else (v, v, o.2.2)

/-- A route environment in which every fetch fails. -/
def envNone : JStr → Option JStr := fun _ => none

/-- A concrete page entry used by witnesses: page `P1`, visible but not
editable. -/
def eEx : PageAccessEntry := ⟨"P1", true, false⟩

/-- A concrete submitted space access used by witnesses: id `SA1` for
space `S1` with the single entry `eEx`. -/
def saEx : SpaceAccess := ⟨"SA1", "S1", true, [eEx]⟩

/-- A concrete submitted user access used by witnesses: user `alice`
with one enabled grant to `SA1`. -/
def uaEx : UserAccess := ⟨"alice", true, [⟨"SA1", true⟩]⟩

/-- A concrete page used by witnesses: `P1` in space `S1`. -/
def pgEx : WikiPage := ⟨"P1", "S1", "s1-route", false⟩

/-- A concrete record state used by witnesses. -/
def dbEx : Db := ⟨[uaEx], [saEx], [pgEx], false, "Guest"⟩

/-- Claim C8: resolution is deterministic, read-only and idempotent: a
call leaves the record state unchanged, and a second call against the
state left behind by the first returns the same `(canView, canEdit)`
answer. -/
theorem c8_resolve_read_only_and_idempotent (db : Db) (u p : String) (m : Bool) :
    (resolveSt db u p m).2 = db ∧
    (resolveSt (resolveSt db u p m).2 u p m).1 = (resolveSt db u p m).1 := by
  have h2 : (resolveSt db u p m).2 = db := by
    unfold resolveSt
    repeat' first | rfl | split
  exact ⟨h2, by rw [h2]⟩

/-- Claim C9: for a user with a submitted `UserAccess` holding an enabled
grant to a submitted `SpaceAccess` covering the page's space, whose
matching page entries are all `visible = true, editable = false` (with at
least one present), resolution grants view and, even in edit mode, denies
edit. -/
theorem c9_visible_not_editable_grants_view_only
    (db : Db) (u : String) (pg : WikiPage) (ua : UserAccess)
    (sa : SpaceAccess) (e : PageAccessEntry)
    (hpg : db.pages.find? (fun q => q.id == pg.id) = some pg)
    (hguest : u ≠ db.guestUser)
    (hua : db.userAccesses.find? (fun a => (a.user == u) && a.submitted) = some ua)
    (hsa : sa ∈ db.spaceAccesses) (hsub : sa.submitted = true)
    (hsp : sa.space = pg.space) (hgrant : sa.id ∈ enabledGrantIds ua)
    (he : e ∈ sa.pageEntries) (hep : e.page = pg.id) (hev : e.visible = true)
    (hall : ∀ e2 ∈ matchedEntries db ua pg, e2.visible = true ∧ e2.editable = false) :
    resolve db u pg.id false = some ⟨true, false⟩ ∧
    resolve db u pg.id true = some ⟨true, false⟩ := by
  have hsamem : sa ∈ matchedSpaceAccesses db ua pg := by
    refine List.mem_filter.mpr ⟨hsa, ?_⟩
    simp [hsub, hsp, hgrant]
  have hemem : e ∈ matchedEntries db ua pg := by
    refine List.mem_filter.mpr ⟨?_, by simp [hep]⟩
    exact List.mem_flatten.mpr ⟨sa.pageEntries, List.mem_map_of_mem _ hsamem, he⟩
  have hsane : (matchedSpaceAccesses db ua pg).isEmpty = false := by
    simp [List.isEmpty_iff]
    exact List.ne_nil_of_mem hsamem
  have hene : (matchedEntries db ua pg).isEmpty = false := by
    simp [List.isEmpty_iff]
    exact List.ne_nil_of_mem hemem
  have hview : (matchedEntries db ua pg).any (fun x => x.visible) = true :=
    List.any_eq_true.mpr ⟨e, hemem, hev⟩
  have hedit : (matchedEntries db ua pg).any (fun x => x.editable) = false :=
    List.any_eq_false.mpr (fun x hx => by simp [(hall x hx).2])
  have hg : (u == db.guestUser) = false := by simp [hguest]
  constructor <;>
    simp [resolve, resolveSt, hpg, hg, hua, hsane, hene, hview, hedit]

/-- Witness for C9 at a concrete record state: alice holds a submitted,
enabled, submitted-space grant whose only entry for `P1` is visible but
not editable, and resolution answers view-yes edit-no. -/
theorem c9_witness :
    (dbEx.pages.find? (fun q => q.id == pgEx.id) = some pgEx) ∧
    ("alice" : String) ≠ dbEx.guestUser ∧
    (dbEx.userAccesses.find? (fun a => (a.user == "alice") && a.submitted) = some uaEx) ∧
    saEx ∈ dbEx.spaceAccesses ∧ saEx.submitted = true ∧
    saEx.space = pgEx.space ∧ saEx.id ∈ enabledGrantIds uaEx ∧
    eEx ∈ saEx.pageEntries ∧ eEx.page = pgEx.id ∧ eEx.visible = true ∧
    (∀ e2 ∈ matchedEntries dbEx uaEx pgEx, e2.visible = true ∧ e2.editable = false) ∧
    (resolve dbEx "alice" pgEx.id false = some ⟨true, false⟩ ∧
     resolve dbEx "alice" pgEx.id true = some ⟨true, false⟩) := by
  refine ⟨by decide, by decide, by decide, by decide, by decide, by decide,
    by decide, by decide, by decide, by decide, by decide, ?_⟩
  exact c9_visible_not_editable_grants_view_only dbEx "alice" pgEx uaEx saEx eEx
    (by decide) (by decide) (by decide) (by decide) (by decide) (by decide)
    (by decide) (by decide) (by decide) (by decide) (by decide)

theorem update_route_wiki_space (env : JStr → Option JStr) (f : FormState) :
    (update_wiki_space_route env f).1.wiki_space = f.wiki_space := by
  unfold update_wiki_space_route
  repeat' first | rfl | split

theorem update_route_access_list (env : JStr → Option JStr) (f : FormState) :
    (update_wiki_space_route env f).1.access_list = f.access_list := by
  unfold update_wiki_space_route
  repeat' first | rfl | split

theorem update_route_old (env : JStr → Option JStr) (f : FormState) :
    (update_wiki_space_route env f).1.old_wiki_space = f.old_wiki_space := by
  unfold update_wiki_space_route
  repeat' first | rfl | split

theorem fetch_ws_wiki_space (env : JStr → Option JStr) (f : FormState) :
    (fetch_wiki_space env f).1.wiki_space = f.wiki_space := by
  unfold fetch_wiki_space
  repeat' first | rfl | split

theorem fetch_ws_access_list (env : JStr → Option JStr) (f : FormState) :
    (fetch_wiki_space env f).1.access_list = f.access_list := by
  unfold fetch_wiki_space
  repeat' first | rfl | split

theorem fetch_ws_old (env : JStr → Option JStr) (f : FormState) :
    (fetch_wiki_space env f).1.old_wiki_space = f.old_wiki_space := by
  unfold fetch_wiki_space
  repeat' first | rfl | split

theorem orNull_idem (v : JStr) : v.orNull.orNull = v.orNull := by
  unfold JStr.orNull
  cases v with
  | undef => simp [JStr.truthy]
  | null => simp [JStr.truthy]
  | str s =>
      by_cases h : s = "" <;> simp [JStr.truthy, h]

/-- Claim C1: in a session (of the `part_000` and `part_001` scripts,
the only versions that track `previousSpace`) where `old_wiki_space`
holds a value `p`, the `access_list` is non-empty, and the field changes
to a different value `s` whose fetched route is `r`: after the operator
confirms the prompt, the list is empty, `old_wiki_space` is `s`, and the
page-choice filter scope is `r`. -/
theorem c1_confirm_clears_commits_and_rescopes
    (env : JStr → Option JStr) (f : FormState) (p s r : String)
    (hold : f.old_wiki_space = .str p) (hp : p ≠ "")
    (hs : s ≠ "") (hne : s ≠ p)
    (hlist : f.contents.length ≠ 0)
    (henv : env (.str s) = some (.str r)) :
    ((step1 env f (.change (.str s) true)).1.access_list = some [] ∧
     (step1 env f (.change (.str s) true)).1.old_wiki_space = .str s ∧
     (step1 env f (.change (.str s) true)).1.scope = r ∧
     (step1 env f (.change (.str s) true)).2.prompted = true) ∧
    ((step0 env f (.change (.str s) true)).1.access_list = some [] ∧
     (step0 env f (.change (.str s) true)).1.old_wiki_space = .str s ∧
     (step0 env f (.change (.str s) true)).1.scope = r ∧
     (step0 env f (.change (.str s) true)).2.prompted = true) := by
  have horn : f.old_wiki_space.orNull = .str p := by
    rw [hold]; simp [JStr.orNull, JStr.truthy, hp]
  have hcond : ¬ (JStr.str s = f.old_wiki_space.orNull) := by
    rw [horn]; simp [hne]
  have hlen : 0 < ({ f with wiki_space := JStr.str s } : FormState).contents.length := by
    simpa [FormState.contents] using Nat.pos_of_ne_zero hlist
  by_cases hr : r = "" <;>
    simp [step1, step0, update_wiki_space_route, fetch_wiki_space,
      FormState.scope, JStr.toScope, JStr.truthy, hcond, hlen, henv, hs, hr]

/-- Witness for C1 at the concrete session of the spec example:
`previousSpace = "eng"`, one row, change to `"sales"`, confirm. -/
theorem c1_witness :
    (fEx.old_wiki_space = JStr.str "eng") ∧ ("eng" : String) ≠ "" ∧
    ("sales" : String) ≠ "" ∧ ("sales" : String) ≠ "eng" ∧
    fEx.contents.length ≠ 0 ∧
    envEx (.str "sales") = some (.str "sales-route") ∧
    (((step1 envEx fEx (.change (.str "sales") true)).1.access_list = some [] ∧
      (step1 envEx fEx (.change (.str "sales") true)).1.old_wiki_space = .str "sales" ∧
      (step1 envEx fEx (.change (.str "sales") true)).1.scope = "sales-route" ∧
      (step1 envEx fEx (.change (.str "sales") true)).2.prompted = true) ∧
     ((step0 envEx fEx (.change (.str "sales") true)).1.access_list = some [] ∧
      (step0 envEx fEx (.change (.str "sales") true)).1.old_wiki_space = .str "sales" ∧
      (step0 envEx fEx (.change (.str "sales") true)).1.scope = "sales-route" ∧
      (step0 envEx fEx (.change (.str "sales") true)).2.prompted = true)) := by
  refine ⟨by decide, by decide, by decide, by decide, by decide, by decide, ?_⟩
  exact c1_confirm_clears_commits_and_rescopes envEx fEx "eng" "sales" "sales-route"
    (by decide) (by decide) (by decide) (by decide) (by decide) (by decide)

/-- Claim C2 (amended): in the `part_000` and `part_001` scripts,
declining the confirmation for a change to a new value with a non-empty
`access_list` only reverts the field to `previousSpace`; the list,
`old_wiki_space` and `route_value` are untouched and no fetch is
issued.  (The committed `wiki_space_access.js` violates the original
claim: see the counterexample.) -/
theorem c2_decline_is_side_effect_free
    (env : JStr → Option JStr) (f : FormState) (v : JStr)
    (hne : v ≠ f.old_wiki_space.orNull)
    (hlist : f.contents.length ≠ 0) :
    step1 env f (.change v false)
      = ({ f with wiki_space := f.old_wiki_space.orNull }, ⟨true, []⟩) ∧
    step0 env f (.change v false)
      = ({ f with wiki_space := f.old_wiki_space.orNull }, ⟨true, []⟩) := by
  have hlen : 0 < ({ f with wiki_space := v } : FormState).contents.length := by
    simpa [FormState.contents] using Nat.pos_of_ne_zero hlist
  constructor <;> simp [step1, step0, hne, hlen]

/-- Witness for C2 at the concrete session of the spec example: change
`eng` to `sales` with one row, decline. -/
theorem c2_witness :
    JStr.str "sales" ≠ fEx.old_wiki_space.orNull ∧
    fEx.contents.length ≠ 0 ∧
    (step1 envEx fEx (.change (.str "sales") false)
       = ({ fEx with wiki_space := fEx.old_wiki_space.orNull }, ⟨true, []⟩) ∧
     step0 envEx fEx (.change (.str "sales") false)
       = ({ fEx with wiki_space := fEx.old_wiki_space.orNull }, ⟨true, []⟩)) := by
  refine ⟨by decide, by decide, ?_⟩
  exact c2_decline_is_side_effect_free envEx fEx (.str "sales") (by decide) (by decide)

/-- Counterexample to C2 as stated: in the committed
`wiki_space_access.js`, declining the confirmation still issues the
route fetch for the new value, updates `route_value`, and leaves the
field at the new value instead of reverting it. -/
theorem c2_counterexample :
    (stepM envEx fEx (.change (.str "sales") false)).2.fetched = [JStr.str "sales"] ∧
    (stepM envEx fEx (.change (.str "sales") false)).1.route_value = JStr.str "sales-route" ∧
    (stepM envEx fEx (.change (.str "sales") false)).1.route_value ≠ fEx.route_value ∧
    (stepM envEx fEx (.change (.str "sales") false)).1.wiki_space = JStr.str "sales" := by
  decide

/-- Claim C4: a `wiki_space` change event carrying the very value
`previousSpace` holds is a no-op in the tracking scripts (`part_000` and
`part_001`): no prompt, no fetch, and the whole form state is unchanged.
(In the committed script `frm.old_wiki_space` never holds a value, so no
event of it satisfies the hypothesis.) -/
theorem c4_change_to_previous_space_is_noop
    (env : JStr → Option JStr) (f : FormState) (p : String) (resp : Bool)
    (hold : f.old_wiki_space = .str p) (hws : f.wiki_space = .str p) (hp : p ≠ "") :
    step1 env f (.change (.str p) resp) = (f, Eff.pure) ∧
    step0 env f (.change (.str p) resp) = (f, Eff.pure) := by
  have hcond : JStr.str p = f.old_wiki_space.orNull := by
    rw [hold]; simp [JStr.orNull, JStr.truthy, hp]
  constructor <;>
    · simp [step1, step0, ← hcond, ← hws]

/-- Witness for C4: the loaded `eng` session receives a change event
carrying `eng` again. -/
theorem c4_witness :
    fEx.old_wiki_space = JStr.str "eng" ∧ fEx.wiki_space = JStr.str "eng" ∧
    ("eng" : String) ≠ "" ∧
    (step1 envEx fEx (.change (.str "eng") true) = (fEx, Eff.pure) ∧
     step0 envEx fEx (.change (.str "eng") true) = (fEx, Eff.pure)) := by
  refine ⟨by decide, by decide, by decide, ?_⟩
  exact c4_change_to_previous_space_is_noop envEx fEx "eng" true
    (by decide) (by decide) (by decide)

/-- Claim C5: a change to a new truthy value `s` while the dependent
list is empty shows no prompt, leaves the list contents empty, fetches
the route `r` of `s` into `route_value`, and commits
`old_wiki_space = s` (scripts `part_000` and `part_001`; `part_001`
runs `clear_table` on the already-empty table, which changes no
contents). -/
theorem c5_empty_list_change_fetches_and_commits
    (env : JStr → Option JStr) (f : FormState) (s r : String) (resp : Bool)
    (hs : s ≠ "") (hne : JStr.str s ≠ f.old_wiki_space.orNull)
    (hempty : f.contents = [])
    (henv : env (.str s) = some (.str r)) :
    (step1 env f (.change (.str s) resp)
       = ({ f with wiki_space := .str s, access_list := some [],
                   route_value := .str r, old_wiki_space := .str s }, ⟨false, [.str s]⟩) ∧
     (step1 env f (.change (.str s) resp)).1.contents = f.contents) ∧
    (step0 env f (.change (.str s) resp)
       = ({ f with wiki_space := .str s,
                   route_value := .str r, old_wiki_space := .str s }, ⟨false, [.str s]⟩) ∧
     (step0 env f (.change (.str s) resp)).1.contents = f.contents) := by
  have he2 : f.access_list.getD [] = [] := hempty
  by_cases hr : r = "" <;>
    simp [step1, step0, update_wiki_space_route, fetch_wiki_space,
      FormState.contents, JStr.truthy, hne, henv, hs, hr, he2]

/-- Witness for C5: an `eng` session with no rows changes to `sales`. -/
theorem c5_witness :
    ("sales" : String) ≠ "" ∧
    JStr.str "sales" ≠ (FormState.mk (.str "eng") (some []) (.str "eng") (.str "eng-route")).old_wiki_space.orNull ∧
    (FormState.mk (.str "eng") (some []) (.str "eng") (.str "eng-route")).contents = [] ∧
    envEx (.str "sales") = some (.str "sales-route") ∧
    ((step1 envEx (FormState.mk (.str "eng") (some []) (.str "eng") (.str "eng-route")) (.change (.str "sales") true)
       = ({ FormState.mk (.str "eng") (some []) (.str "eng") (.str "eng-route") with
            wiki_space := .str "sales", access_list := some [],
            route_value := .str "sales-route", old_wiki_space := .str "sales" }, ⟨false, [.str "sales"]⟩) ∧
      (step1 envEx (FormState.mk (.str "eng") (some []) (.str "eng") (.str "eng-route")) (.change (.str "sales") true)).1.contents
        = (FormState.mk (.str "eng") (some []) (.str "eng") (.str "eng-route")).contents) ∧
     (step0 envEx (FormState.mk (.str "eng") (some []) (.str "eng") (.str "eng-route")) (.change (.str "sales") true)
       = ({ FormState.mk (.str "eng") (some []) (.str "eng") (.str "eng-route") with
            wiki_space := .str "sales",
            route_value := .str "sales-route", old_wiki_space := .str "sales" }, ⟨false, [.str "sales"]⟩) ∧
      (step0 envEx (FormState.mk (.str "eng") (some []) (.str "eng") (.str "eng-route")) (.change (.str "sales") true)).1.contents
        = (FormState.mk (.str "eng") (some []) (.str "eng") (.str "eng-route")).contents)) := by
  refine ⟨by decide, by decide, by decide, by decide, ?_⟩
  exact c5_empty_list_change_fetches_and_commits envEx
    (FormState.mk (.str "eng") (some []) (.str "eng") (.str "eng-route"))
    "sales" "sales-route" true (by decide) (by decide) (by decide) (by decide)

/-- Claim C6 (amended): on form load, `part_000` and `part_001` capture
the current `wiki_space` value into `old_wiki_space`; only `part_001`
additionally fetches the Space record when the value is set and
populates `route_value` with its route; `part_000` issues no fetch on
load, and the committed `wiki_space_access.js` has no load handler at
all. -/
theorem c6_load_captures_and_only_part001_fetches
    (env : JStr → Option JStr) (f : FormState) (s r : String)
    (hws : f.wiki_space = .str s) (hs : s ≠ "")
    (henv : env (.str s) = some (.str r)) :
    step1 env f .load
      = ({ f with old_wiki_space := .str s, route_value := .str r }, ⟨false, [.str s]⟩) ∧
    step0 env f .load = ({ f with old_wiki_space := .str s }, Eff.pure) ∧
    stepM env f .load = (f, Eff.pure) := by
  by_cases hr : r = "" <;>
    simp [step1, step0, stepM, update_wiki_space_route, JStr.truthy, hws, hs, henv, hr]

/-- Witness for C6 (amended): a freshly opened form for space `eng`. -/
theorem c6_witness :
    (FormState.mk (.str "eng") (some ["p1"]) .undef .undef).wiki_space = JStr.str "eng" ∧
    ("eng" : String) ≠ "" ∧
    envEx (.str "eng") = some (.str "eng-route") ∧
    (step1 envEx (FormState.mk (.str "eng") (some ["p1"]) .undef .undef) .load
      = ({ FormState.mk (.str "eng") (some ["p1"]) .undef .undef with
           old_wiki_space := .str "eng", route_value := .str "eng-route" }, ⟨false, [.str "eng"]⟩) ∧
     step0 envEx (FormState.mk (.str "eng") (some ["p1"]) .undef .undef) .load
      = ({ FormState.mk (.str "eng") (some ["p1"]) .undef .undef with
           old_wiki_space := .str "eng" }, Eff.pure) ∧
     stepM envEx (FormState.mk (.str "eng") (some ["p1"]) .undef .undef) .load
      = (FormState.mk (.str "eng") (some ["p1"]) .undef .undef, Eff.pure)) := by
  refine ⟨by decide, by decide, by decide, ?_⟩
  exact c6_load_captures_and_only_part001_fetches envEx
    (FormState.mk (.str "eng") (some ["p1"]) .undef .undef) "eng" "eng-route"
    (by decide) (by decide) (by decide)

/-- Counterexample to C6 as stated: loading a `part_000` form whose
`wiki_space` is set issues no fetch and leaves `route_value` unset, and
loading the committed script captures nothing into `old_wiki_space`. -/
theorem c6_counterexample :
    (FormState.mk (.str "eng") (some ["p1"]) .undef .undef).wiki_space = JStr.str "eng" ∧
    (step0 envEx (FormState.mk (.str "eng") (some ["p1"]) .undef .undef) .load).2.fetched = [] ∧
    (step0 envEx (FormState.mk (.str "eng") (some ["p1"]) .undef .undef) .load).1.route_value = JStr.undef ∧
    (stepM envEx (FormState.mk (.str "eng") (some ["p1"]) .undef .undef) .load).1.old_wiki_space = JStr.undef := by
  decide

/-- Claim C7: when every route fetch fails, any `part_001` event leaves
`route_value` exactly as it was (unset stays unset, a previous value is
kept), and if `route_value` is unset the page-choice filter falls back
to the empty-string scope. -/
theorem c7_failed_fetch_is_non_fatal
    (env : JStr → Option JStr) (h : ∀ v, env v = none) (f : FormState) (e : Ev) :
    (step1 env f e).1.route_value = f.route_value ∧
    (f.route_value = .undef → (step1 env f e).1.scope = "") := by
  have h1 : ∀ g : FormState, (update_wiki_space_route env g).1.route_value = g.route_value := by
    intro g
    unfold update_wiki_space_route
    split
    · simp [h g.wiki_space]
    · rfl
  cases e with
  | load =>
      have hr : (step1 env f .load).1.route_value = f.route_value := by
        simpa [step1] using h1 { f with old_wiki_space := f.wiki_space }
      exact ⟨hr, fun hu => by simp [FormState.scope, hr, hu, JStr.toScope]⟩
  | change v resp =>
      have hr : (step1 env f (.change v resp)).1.route_value = f.route_value := by
        simp only [step1]
        repeat' split
        all_goals first | rfl | simp [h1]
      exact ⟨hr, fun hu => by simp [FormState.scope, hr, hu, JStr.toScope]⟩

/-- Witness for C7: a first load of the `eng` form under an
all-failing environment keeps `route_value` unset and scopes the filter
by the empty string. -/
theorem c7_witness :
    (∀ v, envNone v = none) ∧
    ((step1 envNone (FormState.mk (.str "eng") (some ["p1"]) .undef .undef) .load).1.route_value
       = (FormState.mk (.str "eng") (some ["p1"]) .undef .undef).route_value ∧
     ((FormState.mk (.str "eng") (some ["p1"]) .undef .undef).route_value = .undef →
       (step1 envNone (FormState.mk (.str "eng") (some ["p1"]) .undef .undef) .load).1.scope = "")) :=
  ⟨fun _ => rfl,
   c7_failed_fetch_is_non_fatal envNone (fun _ => rfl)
     (FormState.mk (.str "eng") (some ["p1"]) .undef .undef) .load⟩



theorem step1_change_shape (env : JStr → Option JStr) (f : FormState) (v : JStr) (resp : Bool) :
    (v = f.old_wiki_space.orNull ∧
      step1 env f (.change v resp) = ({ f with wiki_space := v }, Eff.pure)) ∨
    (step1 env f (.change v resp)).1.access_list = some [] ∨
    (step1 env f (.change v resp)).1 = { f with wiki_space := f.old_wiki_space.orNull } := by
  unfold step1
  dsimp only
  repeat' split
  all_goals first
    | exact Or.inl ⟨by assumption, rfl⟩
    | exact Or.inr (Or.inl (update_route_access_list env _))
    | exact Or.inr (Or.inr rfl)

theorem step0_change_shape (env : JStr → Option JStr) (f : FormState) (v : JStr) (resp : Bool) :
    (v = f.old_wiki_space.orNull ∧
      step0 env f (.change v resp) = ({ f with wiki_space := v }, Eff.pure)) ∨
    (step0 env f (.change v resp)).1.access_list = some [] ∨
    (step0 env f (.change v resp)).1 = { f with wiki_space := f.old_wiki_space.orNull } ∨
    ((step0 env f (.change v resp)).1.access_list = f.access_list ∧ f.contents = []) := by
  unfold step0
  dsimp only
  repeat' split
  all_goals first
    | exact Or.inl ⟨by assumption, rfl⟩
    | exact Or.inr (Or.inl (fetch_ws_access_list env _))
    | exact Or.inr (Or.inr (Or.inl rfl))
    | exact Or.inr (Or.inr (Or.inr ⟨fetch_ws_access_list env _,
        List.length_eq_zero.mp (Nat.eq_zero_of_not_pos (by assumption))⟩))

theorem contents_of_clear (f : FormState) (h : f.access_list = some []) :
    f.contents = [] := by
  simp [FormState.contents, h]

theorem inv2_step1 (b : String → JStr → Prop) (env : JStr → Option JStr)
    (f : FormState) (e : Ev) (hI : Inv2 b f) : Inv2 b (step1 env f e).1 := by
  cases e with
  | load =>
      have hc : (step1 env f .load).1.contents = f.contents := by
        simp [step1, FormState.contents, update_route_access_list]
      have ho : (step1 env f .load).1.old_wiki_space = f.wiki_space := by
        simp [step1, update_route_old]
      have hw : (step1 env f .load).1.wiki_space = f.wiki_space := by
        simp [step1, update_route_wiki_space]
      refine ⟨?_, ?_⟩ <;> intro p hp <;> rw [hc] at hp
      · rw [ho]; exact hI.2 p hp
      · rw [hw]; exact hI.2 p hp
  | change v resp =>
      rcases step1_change_shape env f v resp with ⟨hv, hs⟩ | hcl | hs
      · rw [hs]
        refine ⟨fun p hp => hI.1 p hp, fun p hp => ?_⟩
        show b p (JStr.orNull v)
        rw [hv, orNull_idem]
        exact hI.1 p hp
      · have hc := contents_of_clear _ hcl
        refine ⟨?_, ?_⟩ <;> intro p hp <;> rw [hc] at hp <;> simp at hp
      · rw [hs]
        refine ⟨fun p hp => hI.1 p hp, fun p hp => ?_⟩
        show b p (JStr.orNull (JStr.orNull f.old_wiki_space))
        rw [orNull_idem]
        exact hI.1 p hp

theorem inv2_step0 (b : String → JStr → Prop) (env : JStr → Option JStr)
    (f : FormState) (e : Ev) (hI : Inv2 b f) : Inv2 b (step0 env f e).1 := by
  cases e with
  | load =>
      refine ⟨?_, ?_⟩ <;> intro p hp
      · exact hI.2 p hp
      · exact hI.2 p hp
  | change v resp =>
      rcases step0_change_shape env f v resp with ⟨hv, hs⟩ | hcl | hs | ⟨hkeep, hnil⟩
      · rw [hs]
        refine ⟨fun p hp => hI.1 p hp, fun p hp => ?_⟩
        show b p (JStr.orNull v)
        rw [hv, orNull_idem]
        exact hI.1 p hp
      · have hc := contents_of_clear _ hcl
        refine ⟨?_, ?_⟩ <;> intro p hp <;> rw [hc] at hp <;> simp at hp
      · rw [hs]
        refine ⟨fun p hp => hI.1 p hp, fun p hp => ?_⟩
        show b p (JStr.orNull (JStr.orNull f.old_wiki_space))
        rw [orNull_idem]
        exact hI.1 p hp
      · have hc : (step0 env f (.change v resp)).1.contents = [] := by
          rw [FormState.contents, hkeep]
          exact hnil
        refine ⟨?_, ?_⟩ <;> intro p hp <;> rw [hc] at hp <;> simp at hp

theorem run1_inv2 (b : String → JStr → Prop) (env : JStr → Option JStr)
    (f : FormState) (evs : List Ev) (hI : Inv2 b f) : Inv2 b (run1 env f evs) := by
  induction evs generalizing f with
  | nil => exact hI
  | cons e evs ih => exact ih _ (inv2_step1 b env f e hI)

theorem run0_inv2 (b : String → JStr → Prop) (env : JStr → Option JStr)
    (f : FormState) (evs : List Ev) (hI : Inv2 b f) : Inv2 b (run0 env f evs) := by
  induction evs generalizing f with
  | nil => exact hI
  | cons e evs ih => exact ih _ (inv2_step0 b env f e hI)

theorem step1_keep_or_clear (env : JStr → Option JStr) (g : FormState) (e : Ev) :
    (step1 env g e).1.contents = g.contents ∨ (step1 env g e).1.contents = [] := by
  cases e with
  | load =>
      left
      simp [step1, FormState.contents, update_route_access_list]
  | change v resp =>
      rcases step1_change_shape env g v resp with ⟨_, hs⟩ | hcl | hs
      · left; rw [hs]; rfl
      · right; exact contents_of_clear _ hcl
      · left; rw [hs]; rfl

theorem step0_keep_or_clear (env : JStr → Option JStr) (g : FormState) (e : Ev) :
    (step0 env g e).1.contents = g.contents ∨ (step0 env g e).1.contents = [] := by
  cases e with
  | load => left; rfl
  | change v resp =>
      rcases step0_change_shape env g v resp with ⟨_, hs⟩ | hcl | hs | ⟨hkeep, _⟩
      · left; rw [hs]; rfl
      · right; exact contents_of_clear _ hcl
      · left; rw [hs]; rfl
      · left; rw [FormState.contents, hkeep]; rfl

/-- Claim C3 (amended): for the `part_000` and `part_001` scripts, in
every state reached from a loaded session whose initial rows all lie in
the scope of the loaded space, every row of the dependent list lies in
the scope of the committed space (`old_wiki_space`); and the list is
maintained only by wholesale clearing (after any event its contents are
either unchanged or empty — never filtered).  (The committed
`wiki_space_access.js` violates the original claim: see the
counterexample.) -/
theorem c3_list_stays_in_committed_scope
    (b : String → JStr → Prop) (env : JStr → Option JStr) (f : FormState)
    (h0 : ∀ p ∈ f.contents, b p f.wiki_space.orNull) (evs : List Ev) :
    (∀ p ∈ (run1 env f (Ev.load :: evs)).contents,
        b p (run1 env f (Ev.load :: evs)).old_wiki_space.orNull) ∧
    (∀ p ∈ (run0 env f (Ev.load :: evs)).contents,
        b p (run0 env f (Ev.load :: evs)).old_wiki_space.orNull) ∧
    (∀ (g : FormState) (e : Ev),
        (step1 env g e).1.contents = g.contents ∨ (step1 env g e).1.contents = []) ∧
    (∀ (g : FormState) (e : Ev),
        (step0 env g e).1.contents = g.contents ∨ (step0 env g e).1.contents = []) := by
  have hI1 : Inv2 b (step1 env f .load).1 := by
    have hc : (step1 env f .load).1.contents = f.contents := by
      simp [step1, FormState.contents, update_route_access_list]
    have ho : (step1 env f .load).1.old_wiki_space = f.wiki_space := by
      simp [step1, update_route_old]
    have hw : (step1 env f .load).1.wiki_space = f.wiki_space := by
      simp [step1, update_route_wiki_space]
    refine ⟨?_, ?_⟩ <;> intro p hp <;> rw [hc] at hp
    · rw [ho]; exact h0 p hp
    · rw [hw]; exact h0 p hp
  have hI0 : Inv2 b (step0 env f .load).1 := ⟨fun p hp => h0 p hp, fun p hp => h0 p hp⟩
  refine ⟨?_, ?_, step1_keep_or_clear env, step0_keep_or_clear env⟩
  · exact (run1_inv2 b env (step1 env f .load).1 evs hI1).1
  · exact (run0_inv2 b env (step0 env f .load).1 evs hI0).1

/-- Witness for C3: the `eng` session with row `p1` (which lies in the
`eng` scope), loaded and then changed to `sales` with confirmation. -/
theorem c3_witness :
    (∀ p ∈ fEx.contents, p = "p1" ∧ fEx.wiki_space.orNull = JStr.str "eng") ∧
    ((∀ p ∈ (run1 envEx fEx (Ev.load :: [Ev.change (.str "sales") true])).contents,
        p = "p1" ∧
        (run1 envEx fEx (Ev.load :: [Ev.change (.str "sales") true])).old_wiki_space.orNull
          = JStr.str "eng") ∧
     (∀ p ∈ (run0 envEx fEx (Ev.load :: [Ev.change (.str "sales") true])).contents,
        p = "p1" ∧
        (run0 envEx fEx (Ev.load :: [Ev.change (.str "sales") true])).old_wiki_space.orNull
          = JStr.str "eng") ∧
     (∀ (g : FormState) (e : Ev),
        (step1 envEx g e).1.contents = g.contents ∨ (step1 envEx g e).1.contents = []) ∧
     (∀ (g : FormState) (e : Ev),
        (step0 envEx g e).1.contents = g.contents ∨ (step0 envEx g e).1.contents = [])) := by
  refine ⟨by decide, ?_⟩
  exact c3_list_stays_in_committed_scope
    (fun q s => q = "p1" ∧ s = JStr.str "eng") envEx fEx (by decide)
    [Ev.change (.str "sales") true]

/-- Counterexample to C3 as stated: in the committed
`wiki_space_access.js`, changing `eng` to `sales` and declining keeps
the `eng`-scoped row `p1` while the space and its filter scope have
moved to `sales`/`sales-route` — a retained entry outside the current
space's route scope. -/
theorem c3_counterexample :
    (runM envEx fEx [Ev.change (.str "sales") false]).contents = ["p1"] ∧
    (runM envEx fEx [Ev.change (.str "sales") false]).wiki_space = JStr.str "sales" ∧
    (runM envEx fEx [Ev.change (.str "sales") false]).scope = "sales-route" ∧
    (runM envEx fEx [Ev.change (.str "sales") false]).scope ≠ "eng-route" := by
  decide

theorem update_route_contents (env : JStr → Option JStr) (g : FormState) :
    (update_wiki_space_route env g).1.contents = g.contents := by
  simp [FormState.contents, update_route_access_list]

theorem fetch_ws_contents (env : JStr → Option JStr) (g : FormState) :
    (fetch_wiki_space env g).1.contents = g.contents := by
  simp [FormState.contents, fetch_ws_access_list]

theorem obs_step1 (env : JStr → Option JStr) (f : FormState) (e : Ev) :
    obs (step1 env f e).1 = obsStep (obs f) e := by
  cases e with
  | load =>
      simp [obs, obsStep, step1, update_route_wiki_space, update_route_old,
        update_route_access_list, FormState.contents]
  | change v resp =>
      by_cases hv : v = JStr.orNull f.old_wiki_space
      · simp [obs, obsStep, step1, hv, FormState.contents]
      · have hvn : ¬ v = (f.wiki_space, f.old_wiki_space, f.contents).2.1.orNull := hv
        by_cases hl : 0 < f.contents.length
        · have hl1 : 0 < ({ f with wiki_space := v } : FormState).contents.length := hl
          have hl2 : 0 < (f.access_list.getD []).length := hl
          cases resp with
          | true =>
              simp [obs, obsStep, step1, hv, hvn, hl, hl1, hl2, update_route_wiki_space,
                update_route_old, update_route_access_list, FormState.contents]
          | false =>
              simp [obs, obsStep, step1, hv, hvn, hl, hl1, hl2, FormState.contents]
        · have hl1 : ¬ 0 < ({ f with wiki_space := v } : FormState).contents.length := hl
          have hl2 : ¬ 0 < (f.access_list.getD []).length := hl
          have hnil : f.access_list.getD [] = [] :=
            List.length_eq_zero.mp (Nat.eq_zero_of_not_pos hl)
          simp [obs, obsStep, step1, hv, hvn, hl, hl1, hl2, update_route_wiki_space,
            update_route_old, update_route_access_list, FormState.contents, hnil]

theorem obs_step0 (env : JStr → Option JStr) (f : FormState) (e : Ev) :
    obs (step0 env f e).1 = obsStep (obs f) e := by
  cases e with
  | load => simp [obs, obsStep, step0, FormState.contents]
  | change v resp =>
      by_cases hv : v = JStr.orNull f.old_wiki_space
      · simp [obs, obsStep, step0, hv, FormState.contents]
      · have hvn : ¬ v = (f.wiki_space, f.old_wiki_space, f.contents).2.1.orNull := hv
        by_cases hl : 0 < f.contents.length
        · have hl1 : 0 < ({ f with wiki_space := v } : FormState).contents.length := hl
          have hl2 : 0 < (f.access_list.getD []).length := hl
          cases resp with
          | true =>
              simp [obs, obsStep, step0, hv, hvn, hl, hl1, hl2, fetch_ws_wiki_space,
                fetch_ws_old, fetch_ws_access_list, FormState.contents]
          | false =>
              simp [obs, obsStep, step0, hv, hvn, hl, hl1, hl2, FormState.contents]
        · have hl1 : ¬ 0 < ({ f with wiki_space := v } : FormState).contents.length := hl
          have hl2 : ¬ 0 < (f.access_list.getD []).length := hl
          simp [obs, obsStep, step0, hv, hvn, hl, hl1, hl2, fetch_ws_wiki_space,
            fetch_ws_old, fetch_ws_access_list, FormState.contents]

theorem runs_obs_agree (env : JStr → Option JStr) (evs : List Ev) :
    ∀ f0 f1 : FormState, obs f0 = obs f1 →
      obs (run0 env f0 evs) = obs (run1 env f1 evs) := by
  induction evs with
  | nil => intro f0 f1 h; exact h
  | cons e evs ih =>
      intro f0 f1 h
      have h2 : obs (step0 env f0 e).1 = obs (step1 env f1 e).1 := by
        rw [obs_step0, obs_step1, h]
      exact ih (step0 env f0 e).1 (step1 env f1 e).1 h2

/-- Claim C10 (amended): `part_000` and `part_001` are observably
equivalent on final `access_list` contents, `old_wiki_space` tracking
and field values (reverts included) for every event sequence from any
common start state — both evolve the observables by `obsStep` — though
they issue different route fetches (on load, and for a falsy space).
The committed `wiki_space_access.js` is equivalent to neither: see the
counterexample. -/
theorem c10_part000_part001_observably_equivalent
    (env : JStr → Option JStr) (f : FormState) (evs : List Ev) :
    obs (run0 env f evs) = obs (run1 env f evs) :=
  runs_obs_agree env evs f f rfl

/-- Counterexample to C10 as stated: on load-then-change-and-decline,
the committed script ends with the field at `sales` while `part_000`
and `part_001` revert it to `eng`; `part_000` and `part_001` also issue
different fetch lists on load. -/
theorem c10_counterexample :
    (runM envEx fEx [Ev.load, Ev.change (.str "sales") false]).wiki_space = JStr.str "sales" ∧
    (run1 envEx fEx [Ev.load, Ev.change (.str "sales") false]).wiki_space = JStr.str "eng" ∧
    (run0 envEx fEx [Ev.load, Ev.change (.str "sales") false]).wiki_space = JStr.str "eng" ∧
    (runM envEx fEx [Ev.load, Ev.change (.str "sales") false]).wiki_space
      ≠ (run1 envEx fEx [Ev.load, Ev.change (.str "sales") false]).wiki_space ∧
    (step1 envEx fEx Ev.load).2.fetched = [JStr.str "eng"] ∧
    (step0 envEx fEx Ev.load).2.fetched = [] := by
  decide
